import Mathlib

/-!
Verification of the worker-vllm serverless handler layer (`src/handler.py`).

We shallowly embed the Python code: loosely-typed Python values become the
inductive type `PyVal` (floats modelled exactly as rationals), dictionaries
become association lists with first-match lookup, and operations that can
raise return `Except PyErr`.  The two request handlers are modelled as pure
functions taking the external engine's behaviour (its finite sequence of
intermediate `RequestOutput` states and its metrics mapping) as parameters,
and recording the generation request they issue, if any.
-/

namespace WorkerVllm

/-- A Python runtime value, as used by the handler layer.  Floats are
modelled exactly as rationals (abstracting IEEE rounding, which no claim
depends on). -/
inductive PyVal : Type where
  | none : PyVal
  | bool (b : Bool) : PyVal
  | int (n : Int) : PyVal
  | float (q : ℚ) : PyVal
  | str (s : String) : PyVal
  | list (xs : List PyVal) : PyVal
  | dict (d : List (String × PyVal)) : PyVal

/-- Python exceptions that the embedded code can raise. -/
inductive PyErr : Type where
  | typeError : PyErr
  | valueError : PyErr
  | keyError (k : String) : PyErr
  | attributeError : PyErr
deriving DecidableEq

/-- Dictionary lookup (`d[k]` success case / `d.get(k)`): first match wins. -/
def dget (d : List (String × PyVal)) (k : String) : Option PyVal :=
  (d.find? (fun p => p.1 = k)).map (fun p => p.2)

/-- `d.get(k)` / `d.get(k, None)`: missing keys yield Python `None`. -/
def dgetD (d : List (String × PyVal)) (k : String) : PyVal :=
  (dget d k).getD PyVal.none

/-- Dictionary assignment `d[k] = v`: replace the binding if the key is
present, otherwise append a new binding. -/
def dset (d : List (String × PyVal)) (k : String) (v : PyVal) :
    List (String × PyVal) :=
  match d with
  | [] => [(k, v)]
  | (k2, v2) :: rest => if k2 = k then (k, v) :: rest else (k2, v2) :: dset rest k v

/-- Python truthiness (`if x:`). -/
def pyTruthy : PyVal → Bool
  | PyVal.none => false
  | PyVal.bool b => b
  | PyVal.int n => n ≠ 0
  | PyVal.float q => q ≠ 0
  | PyVal.str s => s ≠ ""
  | PyVal.list xs => !xs.isEmpty
  | PyVal.dict d => !d.isEmpty

/-- Digit-string value; `Option.none` unless the list is a nonempty run of
decimal digits. -/
def digitsToNat (cs : List Char) : Option Nat :=
  if cs ≠ [] ∧ cs.all Char.isDigit then
    some (cs.foldl (fun a c => a * 10 + (c.toNat - 48)) 0)
  else
    Option.none

/-- Value of a (possibly empty) run of decimal digits. -/
def digitsVal (cs : List Char) : Nat :=
  cs.foldl (fun a c => a * 10 + (c.toNat - 48)) 0

/-- Strip one optional leading sign, returning (isNegative, rest). -/
def splitSign : List Char → Bool × List Char
  | '-' :: rest => (true, rest)
  | '+' :: rest => (false, rest)
  | cs => (false, cs)

/-- Strip leading and trailing whitespace, as Python's numeric
constructors do before parsing a string. -/
def trimChars (cs : List Char) : List Char :=
  ((cs.dropWhile Char.isWhitespace).reverse.dropWhile Char.isWhitespace).reverse

/-- Python `int(s)` on a string: optional sign then decimal digits
(whitespace-trimmed); anything else is a `ValueError`. -/
def pyStrToInt (s : String) : Option Int :=
  let sc := splitSign (trimChars s.data)
  (digitsToNat sc.2).map (fun n => if sc.1 then -(n : Int) else (n : Int))

/-- Python `float(s)` on a string: optional sign, decimal digits with an
optional fractional part (whitespace-trimmed), modelled exactly as a
rational; anything else is a `ValueError`. -/
def pyStrToFloat (s : String) : Option ℚ :=
  let sc := splitSign (trimChars s.data)
  let core : Option ℚ :=
    match sc.2.splitOn '.' with
    | [ip] => (digitsToNat ip).map (fun n => (n : ℚ))
    | [ip, fp] =>
      if (ip ≠ [] ∨ fp ≠ []) ∧ ip.all Char.isDigit ∧ fp.all Char.isDigit then
        some ((digitsVal ip : ℚ) + (digitsVal fp : ℚ) / ((10 : ℚ) ^ fp.length))
      else
        Option.none
    | _ => Option.none
  core.map (fun q => if sc.1 then -q else q)

/-- Truncation toward zero, as Python `int(float)`. -/
def ratTrunc (q : ℚ) : Int :=
  if 0 ≤ q then q.floor else -((-q).floor)

/-- Python `int(value)`: succeeds on bools, ints, floats and integral
strings; `TypeError` on `None`, lists and dicts; `ValueError` on
non-integral strings. -/
def pyIntExc : PyVal → Except PyErr Int
  | PyVal.bool b => Except.ok (if b then 1 else 0)
  | PyVal.int n => Except.ok n
  | PyVal.float q => Except.ok (ratTrunc q)
  | PyVal.str s =>
    match pyStrToInt s with
    | some n => Except.ok n
    | Option.none => Except.error PyErr.valueError
  | PyVal.none => Except.error PyErr.typeError
  | PyVal.list _ => Except.error PyErr.typeError
  | PyVal.dict _ => Except.error PyErr.typeError

/-- Python `float(value)`: succeeds on bools, ints, floats and numeric
strings; `TypeError` on `None`, lists and dicts; `ValueError` on
non-numeric strings. -/
def pyFloatExc : PyVal → Except PyErr ℚ
  | PyVal.bool b => Except.ok (if b then 1 else 0)
  | PyVal.int n => Except.ok (n : ℚ)
  | PyVal.float q => Except.ok q
  | PyVal.str s =>
    match pyStrToFloat s with
    | some q => Except.ok q
    | Option.none => Except.error PyErr.valueError
  | PyVal.none => Except.error PyErr.typeError
  | PyVal.list _ => Except.error PyErr.typeError
  | PyVal.dict _ => Except.error PyErr.typeError

/-- `validate_int` from `validate_sampling_params`: `int(value)` inside a
`try` that catches `TypeError` and `ValueError`, substituting the default. -/
def validate_int (v dflt : PyVal) : Except PyErr PyVal :=
  match pyIntExc v with
  | Except.ok n => Except.ok (PyVal.int n)
  | Except.error e =>
    if e = PyErr.typeError ∨ e = PyErr.valueError then Except.ok dflt
    else Except.error e

/-- `validate_float`: `float(value)` inside a `try` that catches
`TypeError` and `ValueError`, substituting the default. -/
def validate_float (v dflt : PyVal) : Except PyErr PyVal :=
  match pyFloatExc v with
  | Except.ok q => Except.ok (PyVal.float q)
  | Except.error e =>
    if e = PyErr.typeError ∨ e = PyErr.valueError then Except.ok dflt
    else Except.error e

/-- `validate_bool`: pass the value through only if it is literally a
Python bool; otherwise the default. -/
def validate_bool (v dflt : PyVal) : PyVal :=
  match v with
  | PyVal.bool b => PyVal.bool b
  | _ => dflt

/-- `validate_sampling_params(sampling_params)` from `src/handler.py`:
per-field coercion with silent default substitution, returning the
twelve-field configuration dictionary. -/
def validate_sampling_params (sp : List (String × PyVal)) :
    Except PyErr (List (String × PyVal)) := do
  let n ← validate_int (dgetD sp "n") (PyVal.int 1)
  let best_of ← validate_int (dgetD sp "best_of") PyVal.none
  let presence_penalty ← validate_float (dgetD sp "presence_penalty") (PyVal.float 0)
  let frequency_penalty ← validate_float (dgetD sp "frequency_penalty") (PyVal.float 0)
  let temperature ← validate_float (dgetD sp "temperature") (PyVal.float 1)
  let top_p ← validate_float (dgetD sp "top_p") (PyVal.float 1)
  let top_k ← validate_int (dgetD sp "top_k") (PyVal.int (-1))
  let use_beam_search := validate_bool (dgetD sp "use_beam_search") (PyVal.bool false)
  let stop := dgetD sp "stop"
  let ignore_eos := validate_bool (dgetD sp "ignore_eos") (PyVal.bool false)
  let max_tokens ← validate_int (dgetD sp "max_tokens") (PyVal.int 256)
  let logprobs ← validate_float (dgetD sp "logprobs") PyVal.none
  return [("n", n), ("best_of", best_of), ("presence_penalty", presence_penalty),
    ("frequency_penalty", frequency_penalty), ("temperature", temperature),
    ("top_p", top_p), ("top_k", top_k), ("use_beam_search", use_beam_search),
    ("stop", stop), ("ignore_eos", ignore_eos), ("max_tokens", max_tokens),
    ("logprobs", logprobs)]

/-- Modelled from the spec: `DEFAULT_TEMPLATE` lives in `templates.py`,
which is not part of the provided sources.  Per §4.1 the template embeds
the raw prompt into a fixed wrapper; the default template's wrapper is
empty (the prompt is passed through). -/
def DEFAULT_TEMPLATE (p : String) : String := p

/-- Modelled from the spec: `LLAMA_TEMPLATE` lives in `templates.py`,
which is not part of the provided sources.  Per §4.1 it embeds the raw
prompt unmodified into a fixed chat-style wrapper, distinct from the
default template's wrapper. -/
def LLAMA_TEMPLATE (p : String) : String := "[INST] " ++ p ++ " [/INST]"

/-- Python's `str.lower()` (ASCII case folding), written as a structural
map over the character list. -/
def pyLower (s : String) : String :=
  String.mk (s.data.map Char.toLower)

/-- The template-selection branch shared by both handlers: the two
recognized llama chat identifiers (compared after lowercasing) select the
llama template, everything else the default one. -/
def selectTemplate (modelName : String) : String → String :=
  if pyLower modelName = "llama-2-7b-chat-hf" ∨ pyLower modelName = "llama-2-13b-chat-hf" then
    LLAMA_TEMPLATE
  else
    DEFAULT_TEMPLATE

/-- Applying a (string-to-string) template to a Python value: the
handlers only ever pass the prompt through it. -/
def applyTemplate (t : String → String) : PyVal → PyVal
  | PyVal.str s => PyVal.str (t s)
  | v => v

/-- One completion inside an intermediate engine state
(`request_output.outputs[i]`). -/
structure CompletionOutput : Type where
  text : String
  token_ids : List Nat

/-- One intermediate state yielded by the external engine's
`generate` call. -/
structure RequestOutput : Type where
  prompt : String
  prompt_token_ids : List Nat
  outputs : List CompletionOutput

/-- The sampling configuration handed to the engine: either the engine's
own defaults (`SamplingParams()`) or a validated dictionary
(`SamplingParams(**validated)`). -/
inductive SamplingArg : Type where
  | defaults : SamplingArg
  | fromDict (d : List (String × PyVal)) : SamplingArg

/-- The generation request a handler issues to the engine (the fresh
random request id is abstracted away). -/
structure GenRequest : Type where
  prompt : PyVal
  sampling : SamplingArg

/-- The sampling-parameter branch shared by both handlers:
`job_input.get('sampling_params', None)` followed by
`if sampling_params: ... validate ... else SamplingParams()`.  A truthy
non-dictionary value fails inside `validate_sampling_params` when `.get`
is attribute-looked-up on it. -/
def samplingStep (jid : List (String × PyVal)) : Except PyErr SamplingArg :=
  let spv := dgetD jid "sampling_params"
  if pyTruthy spv then
    match spv with
    | PyVal.dict spd => (validate_sampling_params spd).map SamplingArg.fromDict
    | _ => Except.error PyErr.attributeError
  else
    Except.ok SamplingArg.defaults

/-- The metrics snapshot built for one intermediate state: the engine's
metrics mapping extended with the echoed job input and the per-completion
input/output token counts. -/
def makeMetrics (engineMetrics : List (String × PyVal)) (jobInput : PyVal)
    (ro : RequestOutput) : List (String × PyVal) :=
  dset
    (dset (dset engineMetrics "job_input" jobInput)
      "input_tokens"
      (PyVal.list (List.replicate ro.outputs.length
        (PyVal.int ro.prompt_token_ids.length))))
    "output_tokens"
    (PyVal.list (ro.outputs.map (fun o => PyVal.int o.token_ids.length)))

/-- The non-streaming response
`{"outputs": [...], "runpod_internal": {"metrics": ...}}`. -/
structure NonStreamResponse : Type where
  outputs : List String
  metrics : List (String × PyVal)

/-- One streamed response
`{"text": [...], "runpod_internal": {"metrics": ...}}`. -/
structure StreamItem : Type where
  text : List String
  metrics : List (String × PyVal)

/-- A handler run: its result (or the uncaught exception), together with
the generation request it issued to the engine, if it reached that point. -/
structure HandlerOutcome (α : Type) : Type where
  result : Except PyErr α
  issued : Option GenRequest

/-- The non-streaming handler `handler(job)`, with the external engine's
behaviour supplied as parameters: `gen` is the finite sequence of
intermediate states its result generator yields, `engineMetrics` its
metrics mapping.  The handler drains the sequence keeping only the last
state; on an empty sequence the kept `None` sentinel is dereferenced
(`final_output.prompt`), raising an `AttributeError`. -/
def handlerRun (modelName : String) (engineMetrics : List (String × PyVal))
    (gen : List RequestOutput) (job : PyVal) : HandlerOutcome NonStreamResponse :=
  match job with
  | PyVal.dict jd =>
    match dget jd "input" with
    | Option.none => ⟨Except.error (PyErr.keyError "input"), Option.none⟩
    | some jobInput =>
      match jobInput with
      | PyVal.dict jid =>
        match dget jid "prompt" with
        | Option.none => ⟨Except.error (PyErr.keyError "prompt"), Option.none⟩
        | some pv =>
          let prompt := applyTemplate (selectTemplate modelName) pv
          match samplingStep jid with
          | Except.error e => ⟨Except.error e, Option.none⟩
          | Except.ok sampling =>
            let req : GenRequest := ⟨prompt, sampling⟩
            match gen.getLast? with
            | Option.none => ⟨Except.error PyErr.attributeError, some req⟩
            | some final_output =>
              let text_outputs := final_output.outputs.map (fun o => o.text)
              let metrics := makeMetrics engineMetrics (PyVal.dict jid) final_output
              ⟨Except.ok ⟨text_outputs, metrics⟩, some req⟩
      | _ => ⟨Except.error PyErr.typeError, Option.none⟩
  | _ => ⟨Except.error PyErr.typeError, Option.none⟩

/-- The streaming handler `handler_streaming(job)`: identical up to the
generation request, then one response object yielded per intermediate
state, in order. -/
def streamingRun (modelName : String) (engineMetrics : List (String × PyVal))
    (gen : List RequestOutput) (job : PyVal) : HandlerOutcome (List StreamItem) :=
  match job with
  | PyVal.dict jd =>
    match dget jd "input" with
    | Option.none => ⟨Except.error (PyErr.keyError "input"), Option.none⟩
    | some jobInput =>
      match jobInput with
      | PyVal.dict jid =>
        match dget jid "prompt" with
        | Option.none => ⟨Except.error (PyErr.keyError "prompt"), Option.none⟩
        | some pv =>
          let prompt := applyTemplate (selectTemplate modelName) pv
          match samplingStep jid with
          | Except.error e => ⟨Except.error e, Option.none⟩
          | Except.ok sampling =>
            let req : GenRequest := ⟨prompt, sampling⟩
            let items := gen.map (fun ro =>
              StreamItem.mk (ro.outputs.map (fun o => o.text))
                (makeMetrics engineMetrics (PyVal.dict jid) ro))
            ⟨Except.ok items, some req⟩
      | _ => ⟨Except.error PyErr.typeError, Option.none⟩
  | _ => ⟨Except.error PyErr.typeError, Option.none⟩

/-- `concurrency_controller()`: reads the scheduler's waiting and swapped
queue lengths and reports whether their sum exceeds 30. -/
def concurrency_controller (waiting swapped : Nat) : Bool :=
  waiting + swapped > 30

/-- The value `validate_int` actually produces (it never raises). -/
def intRes (v dflt : PyVal) : PyVal :=
  match pyIntExc v with
  | Except.ok n => PyVal.int n
  | Except.error _ => dflt

/-- The value `validate_float` actually produces (it never raises). -/
def floatRes (v dflt : PyVal) : PyVal :=
  match pyFloatExc v with
  | Except.ok q => PyVal.float q
  | Except.error _ => dflt

/-- The dictionary `validate_sampling_params` returns, field by field. -/
def vspResult (sp : List (String × PyVal)) : List (String × PyVal) :=
  [("n", intRes (dgetD sp "n") (PyVal.int 1)),
   ("best_of", intRes (dgetD sp "best_of") PyVal.none),
   ("presence_penalty", floatRes (dgetD sp "presence_penalty") (PyVal.float 0)),
   ("frequency_penalty", floatRes (dgetD sp "frequency_penalty") (PyVal.float 0)),
   ("temperature", floatRes (dgetD sp "temperature") (PyVal.float 1)),
   ("top_p", floatRes (dgetD sp "top_p") (PyVal.float 1)),
   ("top_k", intRes (dgetD sp "top_k") (PyVal.int (-1))),
   ("use_beam_search", validate_bool (dgetD sp "use_beam_search") (PyVal.bool false)),
   ("stop", dgetD sp "stop"),
   ("ignore_eos", validate_bool (dgetD sp "ignore_eos") (PyVal.bool false)),
   ("max_tokens", intRes (dgetD sp "max_tokens") (PyVal.int 256)),
   ("logprobs", floatRes (dgetD sp "logprobs") PyVal.none)]

/-! ## Helper lemmas -/

theorem dget_cons (k k2 : String) (v : PyVal) (d : List (String × PyVal)) :
    dget ((k2, v) :: d) k = if k2 = k then some v else dget d k := by
  by_cases h : k2 = k <;> simp [dget, List.find?, h]

theorem dget_dset_self (d : List (String × PyVal)) (k : String) (v : PyVal) :
    dget (dset d k v) k = some v := by
  induction d with
  | nil => simp [dset, dget_cons]
  | cons a rest ih =>
    obtain ⟨k2, v2⟩ := a
    by_cases h : k2 = k
    · simp [dset, h, dget_cons]
    · simp [dset, h, dget_cons, ih]

theorem dget_dset_ne (d : List (String × PyVal)) (k k2 : String) (v : PyVal)
    (h : k ≠ k2) : dget (dset d k2 v) k = dget d k := by
  have h2 : ¬ (k2 = k) := fun hh => h hh.symm
  induction d with
  | nil => simp [dset, dget_cons, h2]
  | cons a rest ih =>
    obtain ⟨k3, v3⟩ := a
    by_cases h3 : k3 = k2
    · subst h3
      simp [dset, dget_cons, h2]
    · simp [dset, h3, dget_cons, ih]

theorem pyIntExc_error (v : PyVal) (e : PyErr) (h : pyIntExc v = Except.error e) :
    e = PyErr.typeError ∨ e = PyErr.valueError := by
  cases v <;> simp [pyIntExc] at h <;> try simp [← h]
  case str s =>
    cases hs : pyStrToInt s <;> simp [hs] at h <;> simp [← h]

theorem pyFloatExc_error (v : PyVal) (e : PyErr) (h : pyFloatExc v = Except.error e) :
    e = PyErr.typeError ∨ e = PyErr.valueError := by
  cases v <;> simp [pyFloatExc] at h <;> try simp [← h]
  case str s =>
    cases hs : pyStrToFloat s <;> simp [hs] at h <;> simp [← h]

theorem validate_int_eq (v dflt : PyVal) :
    validate_int v dflt = Except.ok (intRes v dflt) := by
  cases h : pyIntExc v with
  | ok n => simp [validate_int, intRes, h]
  | error e => simp [validate_int, intRes, h, pyIntExc_error v e h]

theorem validate_float_eq (v dflt : PyVal) :
    validate_float v dflt = Except.ok (floatRes v dflt) := by
  cases h : pyFloatExc v with
  | ok q => simp [validate_float, floatRes, h]
  | error e => simp [validate_float, floatRes, h, pyFloatExc_error v e h]

theorem validate_sampling_params_eq (sp : List (String × PyVal)) :
    validate_sampling_params sp = Except.ok (vspResult sp) := by
  simp [validate_sampling_params, vspResult, validate_int_eq, validate_float_eq,
    bind, Except.bind, pure, Except.pure]

theorem intRes_cases (v dflt : PyVal) :
    (∃ m, pyIntExc v = Except.ok m ∧ intRes v dflt = PyVal.int m) ∨
      intRes v dflt = dflt := by
  cases h : pyIntExc v with
  | ok n => exact Or.inl ⟨n, rfl, by simp [intRes, h]⟩
  | error e => exact Or.inr (by simp [intRes, h])

theorem floatRes_cases (v dflt : PyVal) :
    (∃ q, pyFloatExc v = Except.ok q ∧ floatRes v dflt = PyVal.float q) ∨
      floatRes v dflt = dflt := by
  cases h : pyFloatExc v with
  | ok q => exact Or.inl ⟨q, rfl, by simp [floatRes, h]⟩
  | error e => exact Or.inr (by simp [floatRes, h])

theorem validate_bool_cases (v dflt : PyVal) :
    (∃ b, v = PyVal.bool b ∧ validate_bool v dflt = PyVal.bool b) ∨
      validate_bool v dflt = dflt := by
  cases v <;> simp [validate_bool]

theorem makeMetrics_input_tokens (em : List (String × PyVal)) (ji : PyVal)
    (ro : RequestOutput) :
    dget (makeMetrics em ji ro) "input_tokens" =
      some (PyVal.list (List.replicate ro.outputs.length
        (PyVal.int ro.prompt_token_ids.length))) := by
  unfold makeMetrics
  rw [dget_dset_ne _ _ _ _ (by decide), dget_dset_self]

theorem makeMetrics_output_tokens (em : List (String × PyVal)) (ji : PyVal)
    (ro : RequestOutput) :
    dget (makeMetrics em ji ro) "output_tokens" =
      some (PyVal.list (ro.outputs.map (fun o => PyVal.int o.token_ids.length))) := by
  unfold makeMetrics
  rw [dget_dset_self]

theorem intField_disj {out : List (String × PyVal)} {f : String} {v dflt : PyVal}
    (hg : dget out f = some (intRes v dflt)) :
    (∃ m, pyIntExc v = Except.ok m ∧ dget out f = some (PyVal.int m)) ∨
      dget out f = some dflt := by
  rcases intRes_cases v dflt with ⟨m, hm, he⟩ | he
  · exact Or.inl ⟨m, hm, he ▸ hg⟩
  · exact Or.inr (he ▸ hg)

theorem floatField_disj {out : List (String × PyVal)} {f : String} {v dflt : PyVal}
    (hg : dget out f = some (floatRes v dflt)) :
    (∃ q, pyFloatExc v = Except.ok q ∧ dget out f = some (PyVal.float q)) ∨
      dget out f = some dflt := by
  rcases floatRes_cases v dflt with ⟨q, hq, he⟩ | he
  · exact Or.inl ⟨q, hq, he ▸ hg⟩
  · exact Or.inr (he ▸ hg)

theorem boolField_disj {out : List (String × PyVal)} {f : String} {v dflt : PyVal}
    (hg : dget out f = some (validate_bool v dflt)) :
    (∃ b, v = PyVal.bool b ∧ dget out f = some (PyVal.bool b)) ∨
      dget out f = some dflt := by
  rcases validate_bool_cases v dflt with ⟨b, hb, he⟩ | he
  · exact Or.inl ⟨b, hb, he ▸ hg⟩
  · exact Or.inr (he ▸ hg)

/-! ## Claim theorems -/

/-- C1: for every sampling-parameter mapping, `validate_sampling_params`
returns normally (never raises) and its result contains all twelve
configuration fields, each either the coerced input value or that field's
documented default. -/
theorem validate_sampling_params_total_complete (sp : List (String × PyVal)) :
    ∃ out, validate_sampling_params sp = Except.ok out ∧
      out.map Prod.fst = ["n", "best_of", "presence_penalty", "frequency_penalty",
        "temperature", "top_p", "top_k", "use_beam_search", "stop", "ignore_eos",
        "max_tokens", "logprobs"] ∧
      ((∃ m, pyIntExc (dgetD sp "n") = Except.ok m ∧
          dget out "n" = some (PyVal.int m)) ∨
        dget out "n" = some (PyVal.int 1)) ∧
      ((∃ m, pyIntExc (dgetD sp "best_of") = Except.ok m ∧
          dget out "best_of" = some (PyVal.int m)) ∨
        dget out "best_of" = some PyVal.none) ∧
      ((∃ q, pyFloatExc (dgetD sp "presence_penalty") = Except.ok q ∧
          dget out "presence_penalty" = some (PyVal.float q)) ∨
        dget out "presence_penalty" = some (PyVal.float 0)) ∧
      ((∃ q, pyFloatExc (dgetD sp "frequency_penalty") = Except.ok q ∧
          dget out "frequency_penalty" = some (PyVal.float q)) ∨
        dget out "frequency_penalty" = some (PyVal.float 0)) ∧
      ((∃ q, pyFloatExc (dgetD sp "temperature") = Except.ok q ∧
          dget out "temperature" = some (PyVal.float q)) ∨
        dget out "temperature" = some (PyVal.float 1)) ∧
      ((∃ q, pyFloatExc (dgetD sp "top_p") = Except.ok q ∧
          dget out "top_p" = some (PyVal.float q)) ∨
        dget out "top_p" = some (PyVal.float 1)) ∧
      ((∃ m, pyIntExc (dgetD sp "top_k") = Except.ok m ∧
          dget out "top_k" = some (PyVal.int m)) ∨
        dget out "top_k" = some (PyVal.int (-1))) ∧
      ((∃ b, dgetD sp "use_beam_search" = PyVal.bool b ∧
          dget out "use_beam_search" = some (PyVal.bool b)) ∨
        dget out "use_beam_search" = some (PyVal.bool false)) ∧
      dget out "stop" = some (dgetD sp "stop") ∧
      ((∃ b, dgetD sp "ignore_eos" = PyVal.bool b ∧
          dget out "ignore_eos" = some (PyVal.bool b)) ∨
        dget out "ignore_eos" = some (PyVal.bool false)) ∧
      ((∃ m, pyIntExc (dgetD sp "max_tokens") = Except.ok m ∧
          dget out "max_tokens" = some (PyVal.int m)) ∨
        dget out "max_tokens" = some (PyVal.int 256)) ∧
      ((∃ q, pyFloatExc (dgetD sp "logprobs") = Except.ok q ∧
          dget out "logprobs" = some (PyVal.float q)) ∨
        dget out "logprobs" = some PyVal.none) := by
  refine ⟨vspResult sp, validate_sampling_params_eq sp, by simp [vspResult], ?_, ?_,
    ?_, ?_, ?_, ?_, ?_, ?_, ?_, ?_, ?_, ?_⟩
  · exact intField_disj (by simp [vspResult, dget_cons])
  · exact intField_disj (by simp [vspResult, dget_cons])
  · exact floatField_disj (by simp [vspResult, dget_cons])
  · exact floatField_disj (by simp [vspResult, dget_cons])
  · exact floatField_disj (by simp [vspResult, dget_cons])
  · exact floatField_disj (by simp [vspResult, dget_cons])
  · exact intField_disj (by simp [vspResult, dget_cons])
  · exact boolField_disj (by simp [vspResult, dget_cons])
  · simp [vspResult, dget_cons]
  · exact boolField_disj (by simp [vspResult, dget_cons])
  · exact intField_disj (by simp [vspResult, dget_cons])
  · exact floatField_disj (by simp [vspResult, dget_cons])

/-- C4: the concurrency controller is a pure function of the two queue
lengths, true exactly when their sum exceeds 30; in particular true at sum
31 and false at sum 30. -/
theorem concurrency_controller_iff (waiting swapped : Nat) :
    (concurrency_controller waiting swapped = true ↔ 30 < waiting + swapped) ∧
      concurrency_controller 10 21 = true ∧
      concurrency_controller 15 15 = false := by
  refine ⟨?_, by decide, by decide⟩
  simp [concurrency_controller]

/-- C7: the validated `use_beam_search` field is `true` exactly when the
input value is literally the boolean `true`, and likewise for
`ignore_eos`. -/
theorem validate_bool_fields_literal (sp out : List (String × PyVal))
    (h : validate_sampling_params sp = Except.ok out) :
    (dget out "use_beam_search" = some (PyVal.bool true) ↔
      dgetD sp "use_beam_search" = PyVal.bool true) ∧
    (dget out "ignore_eos" = some (PyVal.bool true) ↔
      dgetD sp "ignore_eos" = PyVal.bool true) := by
  rw [validate_sampling_params_eq] at h
  have hout : out = vspResult sp := by
    cases h
    rfl
  subst hout
  constructor
  · have hg : dget (vspResult sp) "use_beam_search" =
        some (validate_bool (dgetD sp "use_beam_search") (PyVal.bool false)) := by
      simp [vspResult, dget_cons]
    rw [hg]
    cases hv : dgetD sp "use_beam_search" <;> simp [validate_bool]
  · have hg : dget (vspResult sp) "ignore_eos" =
        some (validate_bool (dgetD sp "ignore_eos") (PyVal.bool false)) := by
      simp [vspResult, dget_cons]
    rw [hg]
    cases hv : dgetD sp "ignore_eos" <;> simp [validate_bool]

/-- C7 witness: the literal-boolean rule evaluated on a mapping giving the
integer 1 for both boolean fields. -/
theorem validate_bool_fields_literal_witness :
    (dget [("n", PyVal.int 1), ("best_of", PyVal.none),
        ("presence_penalty", PyVal.float 0), ("frequency_penalty", PyVal.float 0),
        ("temperature", PyVal.float 1), ("top_p", PyVal.float 1),
        ("top_k", PyVal.int (-1)), ("use_beam_search", PyVal.bool false),
        ("stop", PyVal.none), ("ignore_eos", PyVal.bool false),
        ("max_tokens", PyVal.int 256), ("logprobs", PyVal.none)]
        "use_beam_search" = some (PyVal.bool true) ↔
      dgetD [("use_beam_search", PyVal.int 1), ("ignore_eos", PyVal.int 1)]
        "use_beam_search" = PyVal.bool true) ∧
    (dget [("n", PyVal.int 1), ("best_of", PyVal.none),
        ("presence_penalty", PyVal.float 0), ("frequency_penalty", PyVal.float 0),
        ("temperature", PyVal.float 1), ("top_p", PyVal.float 1),
        ("top_k", PyVal.int (-1)), ("use_beam_search", PyVal.bool false),
        ("stop", PyVal.none), ("ignore_eos", PyVal.bool false),
        ("max_tokens", PyVal.int 256), ("logprobs", PyVal.none)]
        "ignore_eos" = some (PyVal.bool true) ↔
      dgetD [("use_beam_search", PyVal.int 1), ("ignore_eos", PyVal.int 1)]
        "ignore_eos" = PyVal.bool true) :=
  validate_bool_fields_literal
    [("use_beam_search", PyVal.int 1), ("ignore_eos", PyVal.int 1)]
    [("n", PyVal.int 1), ("best_of", PyVal.none),
      ("presence_penalty", PyVal.float 0), ("frequency_penalty", PyVal.float 0),
      ("temperature", PyVal.float 1), ("top_p", PyVal.float 1),
      ("top_k", PyVal.int (-1)), ("use_beam_search", PyVal.bool false),
      ("stop", PyVal.none), ("ignore_eos", PyVal.bool false),
      ("max_tokens", PyVal.int 256), ("logprobs", PyVal.none)]
    (by rfl)

/-- C5 counterexample: `logprobs` is not passed through unchanged — the
string "2" is float-coerced to 2.0 by `validate_sampling_params`. -/
theorem logprobs_not_passed_through :
    validate_sampling_params [("logprobs", PyVal.str "2")] =
      Except.ok [("n", PyVal.int 1), ("best_of", PyVal.none),
        ("presence_penalty", PyVal.float 0), ("frequency_penalty", PyVal.float 0),
        ("temperature", PyVal.float 1), ("top_p", PyVal.float 1),
        ("top_k", PyVal.int (-1)), ("use_beam_search", PyVal.bool false),
        ("stop", PyVal.none), ("ignore_eos", PyVal.bool false),
        ("max_tokens", PyVal.int 256), ("logprobs", PyVal.float 2)] ∧
    PyVal.float 2 ≠ PyVal.str "2" :=
  ⟨by rfl, fun h => by cases h⟩

/-- C5 amended: `stop` is passed through exactly (defaulting to `None`
when missing), while `logprobs` is float-coerced like the float fields,
falling back to `None` when coercion fails. -/
theorem stop_passthrough_logprobs_coerced (sp out : List (String × PyVal))
    (h : validate_sampling_params sp = Except.ok out) :
    dget out "stop" = some (dgetD sp "stop") ∧
    ((∃ q, pyFloatExc (dgetD sp "logprobs") = Except.ok q ∧
        dget out "logprobs" = some (PyVal.float q)) ∨
      dget out "logprobs" = some PyVal.none) := by
  rw [validate_sampling_params_eq] at h
  have hout : out = vspResult sp := by
    cases h
    rfl
  subst hout
  exact ⟨by simp [vspResult, dget_cons], floatField_disj (by simp [vspResult, dget_cons])⟩

/-- C5 amended witness: pass-through of a concrete `stop` list and the
default `None` for an absent `logprobs`. -/
theorem stop_passthrough_logprobs_coerced_witness :
    dget [("n", PyVal.int 1), ("best_of", PyVal.none),
        ("presence_penalty", PyVal.float 0), ("frequency_penalty", PyVal.float 0),
        ("temperature", PyVal.float 1), ("top_p", PyVal.float 1),
        ("top_k", PyVal.int (-1)), ("use_beam_search", PyVal.bool false),
        ("stop", PyVal.list [PyVal.str "x"]), ("ignore_eos", PyVal.bool false),
        ("max_tokens", PyVal.int 256), ("logprobs", PyVal.none)]
      "stop" = some (dgetD [("stop", PyVal.list [PyVal.str "x"])] "stop") ∧
    ((∃ q, pyFloatExc (dgetD [("stop", PyVal.list [PyVal.str "x"])] "logprobs") =
        Except.ok q ∧
        dget [("n", PyVal.int 1), ("best_of", PyVal.none),
          ("presence_penalty", PyVal.float 0), ("frequency_penalty", PyVal.float 0),
          ("temperature", PyVal.float 1), ("top_p", PyVal.float 1),
          ("top_k", PyVal.int (-1)), ("use_beam_search", PyVal.bool false),
          ("stop", PyVal.list [PyVal.str "x"]), ("ignore_eos", PyVal.bool false),
          ("max_tokens", PyVal.int 256), ("logprobs", PyVal.none)]
          "logprobs" = some (PyVal.float q)) ∨
      dget [("n", PyVal.int 1), ("best_of", PyVal.none),
        ("presence_penalty", PyVal.float 0), ("frequency_penalty", PyVal.float 0),
        ("temperature", PyVal.float 1), ("top_p", PyVal.float 1),
        ("top_k", PyVal.int (-1)), ("use_beam_search", PyVal.bool false),
        ("stop", PyVal.list [PyVal.str "x"]), ("ignore_eos", PyVal.bool false),
        ("max_tokens", PyVal.int 256), ("logprobs", PyVal.none)]
        "logprobs" = some PyVal.none) :=
  stop_passthrough_logprobs_coerced [("stop", PyVal.list [PyVal.str "x"])]
    [("n", PyVal.int 1), ("best_of", PyVal.none),
      ("presence_penalty", PyVal.float 0), ("frequency_penalty", PyVal.float 0),
      ("temperature", PyVal.float 1), ("top_p", PyVal.float 1),
      ("top_k", PyVal.int (-1)), ("use_beam_search", PyVal.bool false),
      ("stop", PyVal.list [PyVal.str "x"]), ("ignore_eos", PyVal.bool false),
      ("max_tokens", PyVal.int 256), ("logprobs", PyVal.none)]
    (by rfl)

/-- C2: on a non-empty engine result sequence, the non-streaming handler
returns a single response whose outputs are the completion texts of the
last state, with `input_tokens` and `output_tokens` arrays of length equal
to the number of completions in that last state. -/
theorem handler_keeps_last_state (m : String) (em : List (String × PyVal))
    (gen : List RequestOutput) (jd jid : List (String × PyVal)) (pv : PyVal)
    (sa : SamplingArg) (last : RequestOutput)
    (h1 : dget jd "input" = some (PyVal.dict jid))
    (h2 : dget jid "prompt" = some pv)
    (h3 : samplingStep jid = Except.ok sa)
    (h4 : gen.getLast? = some last) :
    ∃ resp, (handlerRun m em gen (PyVal.dict jd)).result = Except.ok resp ∧
      resp.outputs = last.outputs.map (fun o => o.text) ∧
      dget resp.metrics "input_tokens" =
        some (PyVal.list (List.replicate last.outputs.length
          (PyVal.int last.prompt_token_ids.length))) ∧
      dget resp.metrics "output_tokens" =
        some (PyVal.list (last.outputs.map (fun o => PyVal.int o.token_ids.length))) ∧
      (∀ l1, dget resp.metrics "input_tokens" = some (PyVal.list l1) →
        l1.length = last.outputs.length) ∧
      (∀ l2, dget resp.metrics "output_tokens" = some (PyVal.list l2) →
        l2.length = last.outputs.length) := by
  refine ⟨⟨last.outputs.map (fun o => o.text), makeMetrics em (PyVal.dict jid) last⟩,
    ?_, rfl, makeMetrics_input_tokens em _ last, makeMetrics_output_tokens em _ last,
    ?_, ?_⟩
  · simp [handlerRun, h1, h2, h3, h4]
  · intro l1 hl1
    rw [makeMetrics_input_tokens] at hl1
    cases hl1
    simp
  · intro l2 hl2
    rw [makeMetrics_output_tokens] at hl2
    cases hl2
    simp

/-- C2 witness: a three-state sequence whose last state has two
completions. -/
theorem handler_keeps_last_state_witness :
    ∃ resp, (handlerRun "gpt2" []
        [⟨"p", [7], [⟨"a", [1]⟩]⟩, ⟨"p", [7], [⟨"ab", [1, 2]⟩]⟩,
          ⟨"p", [7], [⟨"abc", [1, 2, 3]⟩, ⟨"xy", [4, 5]⟩]⟩]
        (PyVal.dict [("input", PyVal.dict [("prompt", PyVal.str "hi")])])).result =
        Except.ok resp ∧
      resp.outputs = (RequestOutput.mk "p" [7]
          [⟨"abc", [1, 2, 3]⟩, ⟨"xy", [4, 5]⟩]).outputs.map (fun o => o.text) ∧
      dget resp.metrics "input_tokens" =
        some (PyVal.list (List.replicate (RequestOutput.mk "p" [7]
          [⟨"abc", [1, 2, 3]⟩, ⟨"xy", [4, 5]⟩]).outputs.length
          (PyVal.int (RequestOutput.mk "p" [7]
            [⟨"abc", [1, 2, 3]⟩, ⟨"xy", [4, 5]⟩]).prompt_token_ids.length))) ∧
      dget resp.metrics "output_tokens" =
        some (PyVal.list ((RequestOutput.mk "p" [7]
          [⟨"abc", [1, 2, 3]⟩, ⟨"xy", [4, 5]⟩]).outputs.map
            (fun o => PyVal.int o.token_ids.length))) ∧
      (∀ l1, dget resp.metrics "input_tokens" = some (PyVal.list l1) →
        l1.length = (RequestOutput.mk "p" [7]
          [⟨"abc", [1, 2, 3]⟩, ⟨"xy", [4, 5]⟩]).outputs.length) ∧
      (∀ l2, dget resp.metrics "output_tokens" = some (PyVal.list l2) →
        l2.length = (RequestOutput.mk "p" [7]
          [⟨"abc", [1, 2, 3]⟩, ⟨"xy", [4, 5]⟩]).outputs.length) :=
  handler_keeps_last_state "gpt2" []
    [⟨"p", [7], [⟨"a", [1]⟩]⟩, ⟨"p", [7], [⟨"ab", [1, 2]⟩]⟩,
      ⟨"p", [7], [⟨"abc", [1, 2, 3]⟩, ⟨"xy", [4, 5]⟩]⟩]
    [("input", PyVal.dict [("prompt", PyVal.str "hi")])]
    [("prompt", PyVal.str "hi")] (PyVal.str "hi") SamplingArg.defaults
    (RequestOutput.mk "p" [7] [⟨"abc", [1, 2, 3]⟩, ⟨"xy", [4, 5]⟩])
    (by rfl) (by rfl) (by rfl) (by rfl)

/-- C3: the streaming handler emits exactly one response object per
intermediate engine state, in order, each carrying that state's completion
texts and a metrics snapshot with the per-completion token-count arrays. -/
theorem streaming_one_item_per_state (m : String) (em : List (String × PyVal))
    (gen : List RequestOutput) (jd jid : List (String × PyVal)) (pv : PyVal)
    (sa : SamplingArg)
    (h1 : dget jd "input" = some (PyVal.dict jid))
    (h2 : dget jid "prompt" = some pv)
    (h3 : samplingStep jid = Except.ok sa) :
    ∃ items, (streamingRun m em gen (PyVal.dict jd)).result = Except.ok items ∧
      items.length = gen.length ∧
      ∀ i (hi : i < gen.length) (hi2 : i < items.length),
        (items.get ⟨i, hi2⟩).text =
          (gen.get ⟨i, hi⟩).outputs.map (fun o => o.text) ∧
        dget (items.get ⟨i, hi2⟩).metrics "input_tokens" =
          some (PyVal.list (List.replicate (gen.get ⟨i, hi⟩).outputs.length
            (PyVal.int (gen.get ⟨i, hi⟩).prompt_token_ids.length))) ∧
        dget (items.get ⟨i, hi2⟩).metrics "output_tokens" =
          some (PyVal.list ((gen.get ⟨i, hi⟩).outputs.map
            (fun o => PyVal.int o.token_ids.length))) := by
  refine ⟨gen.map (fun ro =>
      StreamItem.mk (ro.outputs.map (fun o => o.text))
        (makeMetrics em (PyVal.dict jid) ro)), ?_, by simp, ?_⟩
  · simp [streamingRun, h1, h2, h3]
  · intro i hi hi2
    simp [List.get_map, makeMetrics_input_tokens, makeMetrics_output_tokens]

/-- C3 witness: the three-state sequence streamed one item per state. -/
theorem streaming_one_item_per_state_witness :
    ∃ items, (streamingRun "gpt2" []
        [⟨"p", [7], [⟨"a", [1]⟩]⟩, ⟨"p", [7], [⟨"ab", [1, 2]⟩]⟩,
          ⟨"p", [7], [⟨"abc", [1, 2, 3]⟩, ⟨"xy", [4, 5]⟩]⟩]
        (PyVal.dict [("input", PyVal.dict [("prompt", PyVal.str "hi")])])).result =
        Except.ok items ∧
      items.length = ([⟨"p", [7], [⟨"a", [1]⟩]⟩, ⟨"p", [7], [⟨"ab", [1, 2]⟩]⟩,
        ⟨"p", [7], [⟨"abc", [1, 2, 3]⟩, ⟨"xy", [4, 5]⟩]⟩] :
          List RequestOutput).length ∧
      ∀ i (hi : i < ([⟨"p", [7], [⟨"a", [1]⟩]⟩, ⟨"p", [7], [⟨"ab", [1, 2]⟩]⟩,
          ⟨"p", [7], [⟨"abc", [1, 2, 3]⟩, ⟨"xy", [4, 5]⟩]⟩] :
            List RequestOutput).length)
        (hi2 : i < items.length),
        (items.get ⟨i, hi2⟩).text =
          (([⟨"p", [7], [⟨"a", [1]⟩]⟩, ⟨"p", [7], [⟨"ab", [1, 2]⟩]⟩,
            ⟨"p", [7], [⟨"abc", [1, 2, 3]⟩, ⟨"xy", [4, 5]⟩]⟩] :
              List RequestOutput).get ⟨i, hi⟩).outputs.map (fun o => o.text) ∧
        dget (items.get ⟨i, hi2⟩).metrics "input_tokens" =
          some (PyVal.list (List.replicate
            (([⟨"p", [7], [⟨"a", [1]⟩]⟩, ⟨"p", [7], [⟨"ab", [1, 2]⟩]⟩,
              ⟨"p", [7], [⟨"abc", [1, 2, 3]⟩, ⟨"xy", [4, 5]⟩]⟩] :
                List RequestOutput).get ⟨i, hi⟩).outputs.length
            (PyVal.int (([⟨"p", [7], [⟨"a", [1]⟩]⟩, ⟨"p", [7], [⟨"ab", [1, 2]⟩]⟩,
              ⟨"p", [7], [⟨"abc", [1, 2, 3]⟩, ⟨"xy", [4, 5]⟩]⟩] :
                List RequestOutput).get ⟨i, hi⟩).prompt_token_ids.length))) ∧
        dget (items.get ⟨i, hi2⟩).metrics "output_tokens" =
          some (PyVal.list ((([⟨"p", [7], [⟨"a", [1]⟩]⟩,
            ⟨"p", [7], [⟨"ab", [1, 2]⟩]⟩,
            ⟨"p", [7], [⟨"abc", [1, 2, 3]⟩, ⟨"xy", [4, 5]⟩]⟩] :
              List RequestOutput).get ⟨i, hi⟩).outputs.map
                (fun o => PyVal.int o.token_ids.length))) :=
  streaming_one_item_per_state "gpt2" []
    [⟨"p", [7], [⟨"a", [1]⟩]⟩, ⟨"p", [7], [⟨"ab", [1, 2]⟩]⟩,
      ⟨"p", [7], [⟨"abc", [1, 2, 3]⟩, ⟨"xy", [4, 5]⟩]⟩]
    [("input", PyVal.dict [("prompt", PyVal.str "hi")])]
    [("prompt", PyVal.str "hi")] (PyVal.str "hi") SamplingArg.defaults
    (by rfl) (by rfl) (by rfl)

/-- C6 counterexample: `llama-2-13b-chat-hf` is a model identifier other
than `llama-2-7b-chat-hf` (also after case folding), yet it selects the
very same template. -/
theorem llama13b_shares_llama_template :
    selectTemplate "llama-2-13b-chat-hf" = selectTemplate "llama-2-7b-chat-hf" ∧
      pyLower "llama-2-13b-chat-hf" ≠ pyLower "llama-2-7b-chat-hf" :=
  ⟨rfl, by decide⟩

/-- C6 amended: every selected template embeds the raw prompt unmodified
into a fixed wrapper, and the template selected for `llama-2-7b-chat-hf`
differs from the one selected for any identifier other than the two
recognized llama chat identifiers; the handlers issue the templated
prompt. -/
theorem template_selection_amended (m : String) :
    (∀ p, ∃ pre post, selectTemplate m p = pre ++ p ++ post) ∧
    (pyLower m ≠ "llama-2-7b-chat-hf" → pyLower m ≠ "llama-2-13b-chat-hf" →
      selectTemplate m ≠ selectTemplate "llama-2-7b-chat-hf") ∧
    (∀ (em : List (String × PyVal)) (gen : List RequestOutput)
        (jd jid : List (String × PyVal)) (p : String) (sa : SamplingArg),
      dget jd "input" = some (PyVal.dict jid) →
      dget jid "prompt" = some (PyVal.str p) →
      samplingStep jid = Except.ok sa →
      (handlerRun m em gen (PyVal.dict jd)).issued =
        some ⟨PyVal.str (selectTemplate m p), sa⟩ ∧
      (streamingRun m em gen (PyVal.dict jd)).issued =
        some ⟨PyVal.str (selectTemplate m p), sa⟩) := by
  refine ⟨?_, ?_, ?_⟩
  · intro p
    unfold selectTemplate
    split
    · exact ⟨"[INST] ", " [/INST]", rfl⟩
    · refine ⟨"", "", ?_⟩
      simp [DEFAULT_TEMPLATE]
  · intro hn1 hn2 heq
    have hsel : selectTemplate m = DEFAULT_TEMPLATE := by
      unfold selectTemplate
      rw [if_neg]
      rintro (h | h)
      · exact hn1 h
      · exact hn2 h
    rw [hsel] at heq
    exact absurd (congrFun heq "") (by decide)
  · intro em gen jd jid p sa h1 h2 h3
    refine ⟨?_, ?_⟩
    · cases hg : gen.getLast? <;> simp [handlerRun, h1, h2, h3, applyTemplate, hg]
    · simp [streamingRun, h1, h2, h3, applyTemplate]

/-- C6 amended witness: the identifier `gpt2` selects a different template
than `llama-2-7b-chat-hf`, and both handlers issue the templated prompt on
a concrete job. -/
theorem template_selection_amended_witness :
    selectTemplate "gpt2" ≠ selectTemplate "llama-2-7b-chat-hf" ∧
    (handlerRun "gpt2" [] []
        (PyVal.dict [("input", PyVal.dict [("prompt", PyVal.str "hi")])])).issued =
      some ⟨PyVal.str (selectTemplate "gpt2" "hi"), SamplingArg.defaults⟩ ∧
    (streamingRun "gpt2" [] []
        (PyVal.dict [("input", PyVal.dict [("prompt", PyVal.str "hi")])])).issued =
      some ⟨PyVal.str (selectTemplate "gpt2" "hi"), SamplingArg.defaults⟩ :=
  ⟨(template_selection_amended "gpt2").2.1 (by decide) (by decide),
   ((template_selection_amended "gpt2").2.2 [] []
      [("input", PyVal.dict [("prompt", PyVal.str "hi")])]
      [("prompt", PyVal.str "hi")] "hi" SamplingArg.defaults
      (by rfl) (by rfl) (by rfl)).1,
   ((template_selection_amended "gpt2").2.2 [] []
      [("input", PyVal.dict [("prompt", PyVal.str "hi")])]
      [("prompt", PyVal.str "hi")] "hi" SamplingArg.defaults
      (by rfl) (by rfl) (by rfl)).2⟩

/-- C8: when the job input lacks the `prompt` key, both handlers fail with
a `KeyError` before any generation request is issued. -/
theorem missing_prompt_keyerror (m : String) (em : List (String × PyVal))
    (gen : List RequestOutput) (jd jid : List (String × PyVal))
    (h1 : dget jd "input" = some (PyVal.dict jid))
    (h2 : dget jid "prompt" = Option.none) :
    (handlerRun m em gen (PyVal.dict jd)).result =
      Except.error (PyErr.keyError "prompt") ∧
    (handlerRun m em gen (PyVal.dict jd)).issued = Option.none ∧
    (streamingRun m em gen (PyVal.dict jd)).result =
      Except.error (PyErr.keyError "prompt") ∧
    (streamingRun m em gen (PyVal.dict jd)).issued = Option.none := by
  refine ⟨?_, ?_, ?_, ?_⟩ <;> simp [handlerRun, streamingRun, h1, h2]

/-- C8 witness: a concrete job with an `input` mapping lacking `prompt`,
against a non-trivial engine sequence which is never consulted. -/
theorem missing_prompt_keyerror_witness :
    (handlerRun "gpt2" [] [⟨"p", [1], [⟨"a", [1]⟩]⟩]
        (PyVal.dict [("input", PyVal.dict [("x", PyVal.int 3)])])).result =
      Except.error (PyErr.keyError "prompt") ∧
    (handlerRun "gpt2" [] [⟨"p", [1], [⟨"a", [1]⟩]⟩]
        (PyVal.dict [("input", PyVal.dict [("x", PyVal.int 3)])])).issued = Option.none ∧
    (streamingRun "gpt2" [] [⟨"p", [1], [⟨"a", [1]⟩]⟩]
        (PyVal.dict [("input", PyVal.dict [("x", PyVal.int 3)])])).result =
      Except.error (PyErr.keyError "prompt") ∧
    (streamingRun "gpt2" [] [⟨"p", [1], [⟨"a", [1]⟩]⟩]
        (PyVal.dict [("input", PyVal.dict [("x", PyVal.int 3)])])).issued = Option.none :=
  missing_prompt_keyerror "gpt2" [] [⟨"p", [1], [⟨"a", [1]⟩]⟩]
    [("input", PyVal.dict [("x", PyVal.int 3)])] [("x", PyVal.int 3)]
    (by rfl) (by rfl)

/-- C9: an empty (hence falsy) `sampling_params` mapping takes the same
path as an absent one — the validator is bypassed and the engine's default
sampling configuration is used; the per-field validation path is taken
exactly for non-empty mappings. -/
theorem empty_sampling_params_like_absent :
    (∀ jid : List (String × PyVal),
      dget jid "sampling_params" = some (PyVal.dict []) →
      samplingStep jid = Except.ok SamplingArg.defaults) ∧
    (∀ jid : List (String × PyVal),
      dget jid "sampling_params" = Option.none →
      samplingStep jid = Except.ok SamplingArg.defaults) ∧
    (∀ (jid : List (String × PyVal)) (spd : List (String × PyVal)),
      dget jid "sampling_params" = some (PyVal.dict spd) → spd ≠ [] →
      samplingStep jid = (validate_sampling_params spd).map SamplingArg.fromDict) ∧
    (∀ (m : String) (em : List (String × PyVal)) (gen : List RequestOutput)
        (jd jid : List (String × PyVal)) (pv : PyVal),
      dget jd "input" = some (PyVal.dict jid) →
      dget jid "prompt" = some pv →
      dget jid "sampling_params" = some (PyVal.dict []) →
      (handlerRun m em gen (PyVal.dict jd)).issued =
        some ⟨applyTemplate (selectTemplate m) pv, SamplingArg.defaults⟩ ∧
      (streamingRun m em gen (PyVal.dict jd)).issued =
        some ⟨applyTemplate (selectTemplate m) pv, SamplingArg.defaults⟩) := by
  refine ⟨?_, ?_, ?_, ?_⟩
  · intro jid h
    simp [samplingStep, dgetD, h, pyTruthy]
  · intro jid h
    simp [samplingStep, dgetD, h, pyTruthy]
  · intro jid spd h hne
    simp [samplingStep, dgetD, h, pyTruthy, hne]
  · intro m em gen jd jid pv h1 h2 h3
    have hs : samplingStep jid = Except.ok SamplingArg.defaults := by
      simp [samplingStep, dgetD, h3, pyTruthy]
    refine ⟨?_, ?_⟩
    · cases hg : gen.getLast? <;> simp [handlerRun, h1, h2, hs, hg]
    · simp [streamingRun, h1, h2, hs]

/-- C9 witness: the three sampling-parameter shapes (empty mapping, absent
key, non-empty mapping) on concrete job inputs, and the handlers issuing
engine defaults for the empty mapping. -/
theorem empty_sampling_params_like_absent_witness :
    samplingStep [("prompt", PyVal.str "hi"), ("sampling_params", PyVal.dict [])] =
      Except.ok SamplingArg.defaults ∧
    samplingStep [("prompt", PyVal.str "hi")] = Except.ok SamplingArg.defaults ∧
    samplingStep [("prompt", PyVal.str "hi"),
        ("sampling_params", PyVal.dict [("n", PyVal.int 2)])] =
      (validate_sampling_params [("n", PyVal.int 2)]).map SamplingArg.fromDict ∧
    (handlerRun "gpt2" [] []
        (PyVal.dict [("input", PyVal.dict [("prompt", PyVal.str "hi"),
          ("sampling_params", PyVal.dict [])])])).issued =
      some ⟨applyTemplate (selectTemplate "gpt2") (PyVal.str "hi"),
        SamplingArg.defaults⟩ ∧
    (streamingRun "gpt2" [] []
        (PyVal.dict [("input", PyVal.dict [("prompt", PyVal.str "hi"),
          ("sampling_params", PyVal.dict [])])])).issued =
      some ⟨applyTemplate (selectTemplate "gpt2") (PyVal.str "hi"),
        SamplingArg.defaults⟩ :=
  ⟨empty_sampling_params_like_absent.1
      [("prompt", PyVal.str "hi"), ("sampling_params", PyVal.dict [])] (by rfl),
   empty_sampling_params_like_absent.2.1 [("prompt", PyVal.str "hi")] (by rfl),
   empty_sampling_params_like_absent.2.2.1
      [("prompt", PyVal.str "hi"), ("sampling_params", PyVal.dict [("n", PyVal.int 2)])]
      [("n", PyVal.int 2)] (by rfl) (List.cons_ne_nil _ _),
   (empty_sampling_params_like_absent.2.2.2 "gpt2" [] []
      [("input", PyVal.dict [("prompt", PyVal.str "hi"),
        ("sampling_params", PyVal.dict [])])]
      [("prompt", PyVal.str "hi"), ("sampling_params", PyVal.dict [])]
      (PyVal.str "hi") (by rfl) (by rfl) (by rfl)).1,
   (empty_sampling_params_like_absent.2.2.2 "gpt2" [] []
      [("input", PyVal.dict [("prompt", PyVal.str "hi"),
        ("sampling_params", PyVal.dict [])])]
      [("prompt", PyVal.str "hi"), ("sampling_params", PyVal.dict [])]
      (PyVal.str "hi") (by rfl) (by rfl) (by rfl)).2⟩

/-- C10: on an empty engine result sequence the non-streaming handler
raises (dereferencing the kept `None` sentinel) after having issued its
generation request, while on any non-empty sequence it returns a
response. -/
theorem handler_empty_sequence_raises (m : String) (em : List (String × PyVal))
    (jd jid : List (String × PyVal)) (pv : PyVal) (sa : SamplingArg)
    (h1 : dget jd "input" = some (PyVal.dict jid))
    (h2 : dget jid "prompt" = some pv)
    (h3 : samplingStep jid = Except.ok sa) :
    (handlerRun m em [] (PyVal.dict jd)).result = Except.error PyErr.attributeError ∧
    (handlerRun m em [] (PyVal.dict jd)).issued =
      some ⟨applyTemplate (selectTemplate m) pv, sa⟩ ∧
    (∀ gen : List RequestOutput, gen ≠ [] →
      ∃ resp, (handlerRun m em gen (PyVal.dict jd)).result = Except.ok resp) := by
  refine ⟨by simp [handlerRun, h1, h2, h3], by simp [handlerRun, h1, h2, h3], ?_⟩
  intro gen hne
  obtain ⟨last, hlast⟩ := Option.isSome_iff_exists.mp
    (List.getLast?_isSome.mpr hne)
  exact ⟨⟨last.outputs.map (fun o => o.text), makeMetrics em (PyVal.dict jid) last⟩,
    by simp [handlerRun, h1, h2, h3, hlast]⟩

/-- C10 witness: the empty sequence raises on a concrete job, while a
one-state sequence yields a response. -/
theorem handler_empty_sequence_raises_witness :
    (handlerRun "gpt2" [] []
        (PyVal.dict [("input", PyVal.dict [("prompt", PyVal.str "hi")])])).result =
      Except.error PyErr.attributeError ∧
    (handlerRun "gpt2" [] []
        (PyVal.dict [("input", PyVal.dict [("prompt", PyVal.str "hi")])])).issued =
      some ⟨applyTemplate (selectTemplate "gpt2") (PyVal.str "hi"),
        SamplingArg.defaults⟩ ∧
    (∀ gen : List RequestOutput, gen ≠ [] →
      ∃ resp, (handlerRun "gpt2" [] gen
        (PyVal.dict [("input", PyVal.dict [("prompt", PyVal.str "hi")])])).result =
          Except.ok resp) :=
  handler_empty_sequence_raises "gpt2" []
    [("input", PyVal.dict [("prompt", PyVal.str "hi")])]
    [("prompt", PyVal.str "hi")] (PyVal.str "hi") SamplingArg.defaults
    (by rfl) (by rfl) (by rfl)

end WorkerVllm
